import Mathlib

/-!
Verification development for the browser dashboard's real-time session bridge.

The chat transport (the `useWebSocket` hook together with the zustand chat
store) and the shell transport (the `ClaudeTerminal` component) are embedded
as explicit state machines: every field of the Lean state mirrors a piece of
mutable client state (refs, store fields, pending timers), and every event of
the step function mirrors one callback of the source (connect, open, close,
onmessage dispatch, user submission, disposal, timer firing).  Time is modelled
by an explicit `now : Nat` clock in milliseconds; a `setTimeout(f, d)` call is
modelled by recording the absolute fire time `now + d`, and a timer-fire event
is enabled only when the clock has reached that time.
-/

namespace Bridge

/-- JavaScript truthiness of a nullable string (`!s` is true exactly when `s`
is `null`/`undefined` or the empty string). -/
def jsStrTruthy : Option String → Bool
  | none => false
  | some s => s != ""

/-- An upload reference `{filename, path}` attached to a chat message. -/
structure Attachment where
  filename : String
  path : String
deriving DecidableEq

/-- A chat `Message` as stored in the chat store. -/
structure Message where
  id : String
  role : String
  content : String
  attachments : List Attachment
  timestamp : String
deriving DecidableEq

/-- A `StreamChunk` of the chat store: content plus chunk type string. -/
structure StreamChunk where
  content : String
  ctype : String
deriving DecidableEq

/-- Inbound chat events as decoded by the `ws.onmessage` dispatcher. -/
inductive InMsg where
  | chunk (content : String) (chunkType : Option String)
  | done (sid : Option String)
  | sessionEvt (sid : String)
  | errorEvt (message : String)
deriving DecidableEq

/-- The outbound chat payload `{type:"message", content, attachments,
session_id, is_first_message}`. -/
structure OutPayload where
  content : String
  attachments : List Attachment
  sessionId : Option String
  isFirstMessage : Bool
deriving DecidableEq

/-- The whole observable state of the chat transport: the chat store fields
(`messages`, `streaming`, `streamChunks`, `currentSessionId`), the hook's refs
(`wsConn` for a non-null `wsRef.current`, `sentFirst` for `sentFirstRef`), the
underlying socket (`wsOpen` for `readyState === OPEN`, `closePending` for a
close event still to be delivered), the scheduled reconnect timers (absolute
fire times; the hook keeps no handle to them), and instrumentation counters
(`connectCount` channels opened, `closedCount` close() calls, `sentPayloads`
frames that went out). -/
structure ChatState where
  now : Nat
  token : Bool
  wsConn : Bool
  wsOpen : Bool
  closePending : Bool
  timers : List Nat
  connectCount : Nat
  closedCount : Nat
  sentFirst : Bool
  currentSessionId : Option String
  messages : List Message
  streaming : Bool
  streamChunks : List StreamChunk
  sentPayloads : List OutPayload
deriving DecidableEq

/-- Store action `addMessage`. -/
def addMessage (st : ChatState) (m : Message) : ChatState :=
  { st with messages := st.messages ++ [m] }

/-- Store action `appendStreamChunk`. -/
def appendStreamChunk (st : ChatState) (c : StreamChunk) : ChatState :=
  { st with streamChunks := st.streamChunks ++ [c] }

/-- `data.chunk_type || "text"`. -/
def chunkTypeOrText : Option String → String
  | none => "text"
  | some s => if s == "" then "text" else s

/-- The finalization computation of the `done` handler: the first chunk found
with type `result` wins (`chunks.find`), otherwise the `text` chunks are
concatenated in order with no separator. -/
def finalContent (chunks : List StreamChunk) : String :=
  match chunks.find? (fun c => c.ctype == "result") with
  | some r => r.content
  | none =>
      String.join ((chunks.filter (fun c => c.ctype == "text")).map (fun c => c.content))

/-- The finalization rule as the specification words it: the LAST chunk of
type `result` wins.  Kept separate so it can be compared with `finalContent`,
the rule the code implements. -/
def finalContentSpec (chunks : List StreamChunk) : String :=
  match (chunks.filter (fun c => c.ctype == "result")).getLast? with
  | some r => r.content
  | none =>
      String.join ((chunks.filter (fun c => c.ctype == "text")).map (fun c => c.content))

/-- A synthetic assistant message (`id` and `timestamp` both derive from the
current clock, as `Date.now()` / `new Date()` do). -/
def mkAssistantMsg (st : ChatState) (content : String) : Message :=
  { id := toString st.now, role := "assistant", content := content,
    attachments := [], timestamp := toString st.now }

/-- The `ws.onmessage` dispatcher of the chat hook. -/
def onMessage (st : ChatState) (m : InMsg) : ChatState :=
  match m with
  | .chunk content ctype =>
      appendStreamChunk st { content := content, ctype := chunkTypeOrText ctype }
  | .done sid =>
      let st1 := { st with streaming := false }
      let content := finalContent st1.streamChunks
      let st2 := if content == "" then st1 else addMessage st1 (mkAssistantMsg st1 content)
      let st3 := { st2 with streamChunks := [] }
      if jsStrTruthy sid then { st3 with currentSessionId := sid } else st3
  | .sessionEvt sid =>
      { st with currentSessionId := some sid, sentFirst := true }
  | .errorEvt msg =>
      let st1 := { st with streaming := false, streamChunks := [] }
      addMessage st1 (mkAssistantMsg st1 ("Error: " ++ msg))

/-- `isFirstMessage = !sessionId || !sentFirstRef.current`. -/
def isFirstMessageOf (st : ChatState) : Bool :=
  !jsStrTruthy st.currentSessionId || !st.sentFirst

/-- The hook's `sendMessage`: a no-op unless the socket exists and is OPEN;
otherwise appends the user message, raises `streaming`, clears the chunk
buffer and transmits the payload. -/
def sendMessage (st : ChatState) (content : String) (atts : List Attachment) : ChatState :=
  if st.wsConn && st.wsOpen then
    let isFirst := isFirstMessageOf st
    let st1 := addMessage st
      { id := toString st.now, role := "user", content := content,
        attachments := atts, timestamp := toString st.now }
    let st2 := { st1 with streaming := true, streamChunks := [] }
    { st2 with sentPayloads := st2.sentPayloads ++
        [{ content := content, attachments := atts,
           sessionId := st.currentSessionId, isFirstMessage := isFirst }] }
  else st

/-- Whitespace trimming at both ends, modelling `String.prototype.trim` (an
explicit recursion over the character list so that it evaluates). -/
def trimChars (s : String) : String :=
  String.mk (((s.data.dropWhile Char.isWhitespace).reverse.dropWhile Char.isWhitespace).reverse)

/-- `handleSend` of the chat composer: empty submissions and submissions while
`streaming` are rejected outright; otherwise the trimmed text is sent. -/
def handleSend (st : ChatState) (input : String) (atts : List Attachment) : ChatState :=
  let text := trimChars input
  if text == "" && atts.isEmpty then st
  else if st.streaming then st
  else sendMessage st text atts

/-- The hook's `connect`: silently does nothing without a token, otherwise
opens a fresh channel (not yet OPEN). -/
def chatConnect (st : ChatState) : ChatState :=
  if st.token then
    { st with wsConn := true, wsOpen := false, connectCount := st.connectCount + 1 }
  else st

/-- The hook's `ws.onclose` handler: schedules `setTimeout(connect, 3000)`.
No handle to the timer is retained anywhere. -/
def chatOnClose (st : ChatState) : ChatState :=
  { st with wsOpen := false, closePending := false, timers := st.timers ++ [st.now + 3000] }

/-- The hook's `disconnect`: `wsRef.current?.close(); wsRef.current = null`.
Closing a live socket leaves its close event pending; timers are untouched. -/
def chatDisconnect (st : ChatState) : ChatState :=
  if st.wsConn then
    { st with
      wsConn := false, wsOpen := false, closePending := true,
      closedCount := st.closedCount + 1 }
  else { st with wsConn := false }

/-- The hook's `resetFirstMessage`. -/
def resetFirstMessage (st : ChatState) : ChatState :=
  { st with sentFirst := false }

/-- Modelled from the spec: the consumer of the `useWebSocket` hook (the chat
page component, which is not among the source files; only the hook itself is)
disposes the transport by invoking `disconnect` and `resetFirstMessage`, per
the specification sentence that the first-message flag is "reset whenever the
transport disposer is invoked". -/
def disposeChat (st : ChatState) : ChatState :=
  resetFirstMessage (chatDisconnect st)

/-- Events the chat transport can process: its own calls, inbound frames,
socket lifecycle callbacks, timer firings and the passage of time. -/
inductive ChatEvent where
  | connectCall
  | openEvt
  | recv (m : InMsg)
  | submit (input : String) (atts : List Attachment)
  | disconnectCall
  | resetFirstCall
  | closeEvt
  | timerFire (k : Nat)
  | elapse (d : Nat)
deriving DecidableEq

/-- One step of the chat transport.  A scheduled timer may fire only when the
clock equals its recorded fire time. -/
def chatStep (st : ChatState) (e : ChatEvent) : ChatState :=
  match e with
  | .connectCall => chatConnect st
  | .openEvt => if st.wsConn then { st with wsOpen := true } else st
  | .recv m => onMessage st m
  | .submit input atts => handleSend st input atts
  | .disconnectCall => chatDisconnect st
  | .resetFirstCall => resetFirstMessage st
  | .closeEvt => if st.wsConn || st.closePending then chatOnClose st else st
  | .timerFire k =>
      match st.timers[k]? with
      | some t =>
          if t == st.now then chatConnect { st with timers := st.timers.eraseIdx k } else st
      | none => st
  | .elapse d => { st with now := st.now + d }

/-- Initial chat state: empty store, no socket, clock at zero. -/
def chatInit (token : Bool) : ChatState :=
  { now := 0, token := token, wsConn := false, wsOpen := false, closePending := false,
    timers := [], connectCount := 0, closedCount := 0, sentFirst := false,
    currentSessionId := none, messages := [], streaming := false, streamChunks := [],
    sentPayloads := [] }

/-- Run the chat transport over a list of events from the initial state. -/
def chatRun (token : Bool) (evs : List ChatEvent) : ChatState :=
  evs.foldl chatStep (chatInit token)

/-- A frame sent over the shell transport: the structured JSON control frame
`{type:"resize",cols,rows}` or a raw string frame (keystrokes, typed text,
injected upload paths). -/
inductive ShellFrame where
  | resize (cols rows : Nat)
  | raw (data : String)
deriving DecidableEq

/-- State of the shell transport (`ClaudeTerminal`): the terminal object
(`termAlive` for a non-null `termRef.current`, `termBuffer` for everything
written into it, `cols`/`rows` for its geometry), the socket
(`wsConn`/`wsOpen`/`closePending` as for the chat transport), the stored
reconnect-timer handle (`reconnectTimer`, an absolute fire time — the
component keeps the handle and can cancel it), the three fit-retry timers
scheduled at mount, and the outbound frames and counters. -/
structure ShellState where
  now : Nat
  token : Bool
  termAlive : Bool
  termBuffer : String
  cols : Nat
  rows : Nat
  wsConn : Bool
  wsOpen : Bool
  closePending : Bool
  reconnectTimer : Option Nat
  fitTimers : List Nat
  sentFrames : List ShellFrame
  connectCount : Nat
  closedCount : Nat
deriving DecidableEq

/-- The component's `connect`: returns silently unless a token is present and
the terminal still exists; otherwise opens a fresh channel. -/
def shellConnect (st : ShellState) : ShellState :=
  if st.token && st.termAlive then
    { st with wsConn := true, wsOpen := false, connectCount := st.connectCount + 1 }
  else st

/-- `doFit`: refit the terminal to the host geometry, then send a resize frame
only if the socket is OPEN and both dimensions are nonzero; otherwise the
resize is skipped outright (nothing is queued). -/
def doFit (st : ShellState) (c r : Nat) : ShellState :=
  let st1 := { st with cols := c, rows := r }
  if st1.wsConn && st1.wsOpen && (c != 0) && (r != 0) then
    { st1 with sentFrames := st1.sentFrames ++ [ShellFrame.resize c r] }
  else st1

/-- The mount effect: create the terminal, run `doFit` once immediately,
schedule the fit retries at 100 ms, 500 ms and 1500 ms, and call `connect`. -/
def shellMount (st : ShellState) (c r : Nat) : ShellState :=
  let st1 := { st with
    termAlive := true,
    fitTimers := [st.now + 100, st.now + 500, st.now + 1500] }
  shellConnect (doFit st1 c r)

/-- `ws.onopen`: mark connected and send the initial resize control frame
(guarded only by the terminal existing). -/
def shellOnOpen (st : ShellState) : ShellState :=
  let st1 := { st with wsOpen := true }
  if st1.termAlive then
    { st1 with sentFrames := st1.sentFrames ++ [ShellFrame.resize st1.cols st1.rows] }
  else st1

/-- The yellow marker line `ws.onclose` writes into the terminal. -/
def disconnectMarker : String := "\r\n\x1b[33m[Disconnected. Reconnecting...]\x1b[0m\r\n"

/-- `ws.onclose`: mark disconnected, write the marker (if the terminal still
exists) and store a reconnect timer at `now + 3000`. -/
def shellOnClose (st : ShellState) : ShellState :=
  let st1 := { st with wsOpen := false, closePending := false }
  let st2 :=
    if st1.termAlive then { st1 with termBuffer := st1.termBuffer ++ disconnectMarker }
    else st1
  { st2 with reconnectTimer := some (st2.now + 3000) }

/-- The effect cleanup on unmount: clear the three fit timers, cancel the
pending reconnect timer, close the channel (once, if it exists) and dispose
the terminal. -/
def shellCleanup (st : ShellState) : ShellState :=
  let st1 := { st with fitTimers := [], reconnectTimer := none }
  let st2 :=
    if st1.wsConn then
      { st1 with closePending := true, closedCount := st1.closedCount + 1 }
    else st1
  { st2 with wsConn := false, wsOpen := false, termAlive := false }

/-- The red marker line written into the terminal when an upload fails. -/
def uploadFailMarker (fname : String) : String :=
  "\r\n\x1b[31m[Upload failed: " ++ fname ++ "]\x1b[0m"

/-- Events of the shell transport. -/
inductive ShellEvent where
  | mount (c r : Nat)
  | openEvt
  | closeEvt
  | cleanup
  | reconnectFire
  | fitFire (k : Nat) (c r : Nat)
  | geomChange (c r : Nat)
  | sendCommand (s : String)
  | sendKey (s : String)
  | uploadDone (path : String)
  | uploadFail (fname : String)
  | elapse (d : Nat)
deriving DecidableEq

/-- One step of the shell transport.  `reconnectFire`/`fitFire` fire only when
the clock equals the recorded time of a still-scheduled timer; `geomChange` is
the `ResizeObserver` callback; `uploadDone`/`uploadFail` are the two outcomes
of `handleFileUpload`; `sendCommand`/`sendKey` are the imperative send
entry points (both silently drop their payload unless the socket is OPEN). -/
def shellStep (st : ShellState) (e : ShellEvent) : ShellState :=
  match e with
  | .mount c r => shellMount st c r
  | .openEvt => if st.wsConn then shellOnOpen st else st
  | .closeEvt => if st.wsConn || st.closePending then shellOnClose st else st
  | .cleanup => shellCleanup st
  | .reconnectFire =>
      match st.reconnectTimer with
      | some t =>
          if t == st.now then shellConnect { st with reconnectTimer := none } else st
      | none => st
  | .fitFire k c r =>
      match st.fitTimers[k]? with
      | some t =>
          if t == st.now then doFit { st with fitTimers := st.fitTimers.eraseIdx k } c r
          else st
      | none => st
  | .geomChange c r => doFit st c r
  | .sendCommand s =>
      if st.wsConn && st.wsOpen then
        { st with sentFrames := st.sentFrames ++ [ShellFrame.raw s] }
      else st
  | .sendKey s =>
      if st.wsConn && st.wsOpen then
        { st with sentFrames := st.sentFrames ++ [ShellFrame.raw s] }
      else st
  | .uploadDone path =>
      if st.wsConn && st.wsOpen then
        { st with sentFrames := st.sentFrames ++ [ShellFrame.raw path] }
      else st
  | .uploadFail fname =>
      if st.termAlive then
        { st with termBuffer := st.termBuffer ++ uploadFailMarker fname }
      else st
  | .elapse d => { st with now := st.now + d }

/-- Initial shell state: nothing mounted, clock at zero. -/
def shellInit (token : Bool) : ShellState :=
  { now := 0, token := token, termAlive := false, termBuffer := "", cols := 0, rows := 0,
    wsConn := false, wsOpen := false, closePending := false, reconnectTimer := none,
    fitTimers := [], sentFrames := [], connectCount := 0, closedCount := 0 }

/-- Run the shell transport over a list of events from the initial state. -/
def shellRun (token : Bool) (evs : List ShellEvent) : ShellState :=
  evs.foldl shellStep (shellInit token)

/-- The upload result record returned by the upload endpoint (only the fields
the composer consumes). -/
structure UploadResult where
  filename : String
  path : String
deriving DecidableEq

/-- State of the chat composer's upload coordinator (`InputArea`): pending
attachments, the transient error banner with its scheduled dismissal time, and
a count of upload requests actually issued. -/
structure ComposerState where
  now : Nat
  attachments : List Attachment
  uploadError : Option String
  errorClearAt : Option Nat
  uploadCalls : Nat
deriving DecidableEq

/-- One iteration of the upload loop: exactly one upload request per file; on
success the result joins the pending attachments, on failure the transient
notice is set and its dismissal scheduled 3000 ms ahead.  No retry happens in
either branch. -/
def uploadOne (st : ComposerState) (fname : String) (result : Option UploadResult) : ComposerState :=
  let st1 := { st with uploadCalls := st.uploadCalls + 1 }
  match result with
  | some res =>
      { st1 with attachments := st1.attachments ++ [{ filename := res.filename, path := res.path }] }
  | none =>
      { st1 with
        uploadError := some ("上传失败: " ++ fname),
        errorClearAt := some (st1.now + 3000) }

/-- `handleFileUpload` of the composer: clear any previous error, then upload
the files one after the other. -/
def handleFileUpload (st : ComposerState) (files : List (String × Option UploadResult)) : ComposerState :=
  files.foldl (fun s f => uploadOne s f.1 f.2) { st with uploadError := none }

/-- Reachability for the chat transport: traces of arbitrary events, except
that a `chunk` event is delivered only while an exchange is streaming — the
protocol serves at most one chunk/done/error sequence per submission, so
chunks arrive only between a submission and its final `done`/`error`. -/
inductive ChatReachable : ChatState → Prop where
  | init (token : Bool) : ChatReachable (chatInit token)
  | stepNonChunk (st : ChatState) (e : ChatEvent) (h : ChatReachable st)
      (hc : ∀ c t, e ≠ .recv (.chunk c t)) : ChatReachable (chatStep st e)
  | stepChunk (st : ChatState) (c : String) (t : Option String) (h : ChatReachable st)
      (hs : st.streaming = true) : ChatReachable (chatStep st (.recv (.chunk c t)))

/-- A freshly connected and opened chat transport. -/
def stChatOpen : ChatState := chatRun true [.connectCall, .openEvt]

/-- A chat transport mid-stream (one submission sent, streaming). -/
def stChatStreaming : ChatState := chatRun true [.connectCall, .openEvt, .submit "hi" []]

/-- A chat transport mid-stream with one chunk buffered. -/
def stChatWithChunk : ChatState :=
  chatRun true [.connectCall, .openEvt, .submit "hi" [], .recv (.chunk "x" none)]

/-- A mounted, connected, opened shell transport. -/
def stShellReady : ShellState := shellRun true [.mount 80 24, .openEvt]

/-- An empty composer. -/
def composer0 : ComposerState :=
  { now := 0, attachments := [], uploadError := none, errorClearAt := none, uploadCalls := 0 }

/-- Chat trace: connect, open, then consumer disposal (disconnect plus
first-message reset). -/
def c2DisposeTrace : List ChatEvent :=
  [.connectCall, .openEvt, .disconnectCall, .resetFirstCall]

/-- The disposal trace continued by the close event the disposal itself
provoked, 3000 ms of time, and the firing of the reconnect timer that the
close handler scheduled. -/
def c2FullTrace : List ChatEvent :=
  c2DisposeTrace ++ [.closeEvt, .elapse 3000, .timerFire 0]

/-- A buffer with two `result` chunks of different content. -/
def c1Buffer : List StreamChunk :=
  [{ content := "a", ctype := "result" }, { content := "b", ctype := "result" }]

/-- Chat trace delivering two `result` chunks and then `done`. -/
def c1Trace : List ChatEvent :=
  [.connectCall, .openEvt, .submit "q" [],
   .recv (.chunk "a" (some "result")), .recv (.chunk "b" (some "result")),
   .recv (.done none)]

/-- Chat trace: send, receive `done` carrying a session id, send again. -/
def c10Trace : List ChatEvent :=
  [.connectCall, .openEvt, .submit "hello" [], .recv (.done (some "s")), .submit "again" []]

/-! ## Theorems -/

/-- Closed form of the `done` handler: streaming off, buffer cleared, the
finalized message appended unless its content is empty, and the session bound
when the event carries a truthy session id. -/
theorem done_step (st : ChatState) (sid : Option String) :
    chatStep st (.recv (.done sid)) =
      { st with
        streaming := false,
        streamChunks := [],
        messages :=
          if finalContent st.streamChunks == "" then st.messages
          else st.messages ++ [mkAssistantMsg st (finalContent st.streamChunks)],
        currentSessionId := if jsStrTruthy sid then sid else st.currentSessionId } := by
  show onMessage st (.done sid) = _
  unfold onMessage
  cases h1 : (finalContent st.streamChunks == "") <;>
    cases h2 : jsStrTruthy sid <;>
      simp [h1, h2, addMessage, mkAssistantMsg]

/-- Closed form of the `error` handler: streaming off, buffer cleared, a
synthetic assistant error message appended. -/
theorem error_step (st : ChatState) (msg : String) :
    chatStep st (.recv (.errorEvt msg)) =
      { st with
        streaming := false,
        streamChunks := [],
        messages := st.messages ++
          [mkAssistantMsg { st with streaming := false } ("Error: " ++ msg)] } := by
  show onMessage st (.errorEvt msg) = _
  unfold onMessage
  simp [addMessage, mkAssistantMsg]

/-- `find?` returns the head of the suffix when nothing in the prefix
matches. -/
theorem find?_split {α : Type} (p : α → Bool) (l₁ l₂ : List α) (r : α)
    (h₁ : ∀ c ∈ l₁, p c = false) (hr : p r = true) :
    (l₁ ++ r :: l₂).find? p = some r := by
  induction l₁ with
  | nil => simp [List.find?_cons, hr]
  | cons a l ih =>
      have ha := h₁ a (List.mem_cons_self a l)
      simp only [List.cons_append, List.find?_cons, ha, cond_false]
      exact ih (fun c hc => h₁ c (List.mem_cons_of_mem a hc))


/-- C1 (amended): on a `done` event the Aggregation Buffer is cleared and
streaming ends; the finalized content is the content, verbatim, of the FIRST
chunk of type `result` if any exists, otherwise the concatenation in arrival
order, with no separator, of the content of every `text` chunk; if that
content is empty no Message is appended, otherwise exactly one assistant
Message carrying it is appended. -/
theorem claim_C1_amended (st : ChatState) (sid : Option String) :
    ((chatStep st (.recv (.done sid))).streamChunks = [] ∧
      (chatStep st (.recv (.done sid))).streaming = false) ∧
    (finalContent st.streamChunks = "" →
      (chatStep st (.recv (.done sid))).messages = st.messages) ∧
    (finalContent st.streamChunks ≠ "" →
      (chatStep st (.recv (.done sid))).messages =
        st.messages ++ [mkAssistantMsg st (finalContent st.streamChunks)]) ∧
    (∀ (l₁ : List StreamChunk) (r : StreamChunk) (l₂ : List StreamChunk),
      st.streamChunks = l₁ ++ r :: l₂ → r.ctype = "result" →
      (∀ c ∈ l₁, c.ctype ≠ "result") → finalContent st.streamChunks = r.content) ∧
    ((∀ c ∈ st.streamChunks, c.ctype ≠ "result") →
      finalContent st.streamChunks =
        String.join ((st.streamChunks.filter (fun c => c.ctype == "text")).map
          (fun c => c.content))) := by
  refine ⟨?_, ?_, ?_, ?_, ?_⟩
  · rw [done_step]
    exact ⟨rfl, rfl⟩
  · intro h
    rw [done_step]
    simp [h]
  · intro h
    rw [done_step]
    simp [h]
  · intro l₁ r l₂ hsplit hr hl
    have h₁ : ∀ c ∈ l₁, (fun c : StreamChunk => c.ctype == "result") c = false := by
      intro c hc
      simpa using hl c hc
    have hr' : (fun c : StreamChunk => c.ctype == "result") r = true := by
      simpa using hr
    rw [hsplit]
    unfold finalContent
    rw [find?_split _ l₁ l₂ r h₁ hr']
  · intro h
    unfold finalContent
    rw [List.find?_eq_none.mpr (fun c hc => by simpa using h c hc)]

/-- C1 counterexample: a buffer holding two `result` chunks with different
content is finalized to the FIRST one's content; the claimed "last `result`
chunk" rule yields the other content on the same buffer. -/
theorem claim_C1_counterexample :
    (chatRun true c1Trace).messages.map (fun m => m.content) = ["q", "a"] ∧
    finalContent c1Buffer = "a" ∧
    finalContentSpec c1Buffer = "b" ∧
    ("a" : String) ≠ "b" ∧
    (chatRun true [.connectCall, .openEvt, .submit "q" [],
      .recv (.chunk "a" (some "result")),
      .recv (.chunk "b" (some "result"))]).streamChunks = c1Buffer := by
  decide

/-- C1 witness: finalizing the two-result buffer through the `done` handler
clears it and appends the first result's content. -/
theorem claim_C1_witness :
    (chatStep (chatRun true [.connectCall, .openEvt, .submit "q" [],
        .recv (.chunk "a" (some "result")), .recv (.chunk "b" (some "result"))])
      (.recv (.done none))).streamChunks = [] ∧
    finalContent (chatRun true [.connectCall, .openEvt, .submit "q" [],
        .recv (.chunk "a" (some "result")), .recv (.chunk "b" (some "result"))]).streamChunks ≠ "" ∧
    (chatStep (chatRun true [.connectCall, .openEvt, .submit "q" [],
        .recv (.chunk "a" (some "result")), .recv (.chunk "b" (some "result"))])
      (.recv (.done none))).messages =
      (chatRun true [.connectCall, .openEvt, .submit "q" [],
        .recv (.chunk "a" (some "result")), .recv (.chunk "b" (some "result"))]).messages ++
      [mkAssistantMsg (chatRun true [.connectCall, .openEvt, .submit "q" [],
        .recv (.chunk "a" (some "result")), .recv (.chunk "b" (some "result"))])
        (finalContent (chatRun true [.connectCall, .openEvt, .submit "q" [],
          .recv (.chunk "a" (some "result")), .recv (.chunk "b" (some "result"))]).streamChunks)] ∧
    finalContent (chatRun true [.connectCall, .openEvt, .submit "q" [],
        .recv (.chunk "a" (some "result")), .recv (.chunk "b" (some "result"))]).streamChunks =
      ({ content := "a", ctype := "result" } : StreamChunk).content :=
  ⟨(claim_C1_amended (chatRun true [.connectCall, .openEvt, .submit "q" [],
      .recv (.chunk "a" (some "result")), .recv (.chunk "b" (some "result"))]) none).1.1,
   by decide,
   (claim_C1_amended (chatRun true [.connectCall, .openEvt, .submit "q" [],
      .recv (.chunk "a" (some "result")), .recv (.chunk "b" (some "result"))]) none).2.2.1
     (by decide),
   (claim_C1_amended (chatRun true [.connectCall, .openEvt, .submit "q" [],
      .recv (.chunk "a" (some "result")), .recv (.chunk "b" (some "result"))]) none).2.2.2.1
     [] { content := "a", ctype := "result" } [{ content := "b", ctype := "result" }]
     (by decide) (by decide) (by decide)⟩

/-- C10: a `done` event carrying a session id binds the session to the
transport but does not satisfy the first-message flag, so in the run
connect–open–send–done(session)–send the second outbound payload carries the
bound session id together with is_first_message = true. -/
theorem claim_C10 :
    (chatRun true c10Trace).sentPayloads.map (fun p => (p.sessionId, p.isFirstMessage)) =
      [(none, true), (some "s", true)] ∧
    (chatRun true c10Trace).currentSessionId = some "s" ∧
    (chatRun true c10Trace).sentFirst = false := by
  decide

/-- C4: a chat submission attempted while the streaming flag is true is
rejected outright — the whole observable state (Aggregation Buffer included)
is left unchanged and nothing is transmitted. -/
theorem claim_C4 (st : ChatState) (input : String) (atts : List Attachment)
    (h : st.streaming = true) : chatStep st (.submit input atts) = st := by
  simp [chatStep, handleSend, h]

/-- C4 witness: a state mid-stream rejects a second submission unchanged. -/
theorem claim_C4_witness :
    stChatStreaming.streaming = true ∧
    chatStep stChatStreaming (.submit "next" []) = stChatStreaming :=
  ⟨by decide, claim_C4 stChatStreaming "next" [] (by decide)⟩

/-- C5: sends on a transport that is not connected are silent no-ops: the
chat `sendMessage` and the shell `sendCommand`/`sendKey` all leave the state
(history, streaming flag, buffer, outbound frames) untouched. -/
theorem claim_C5 :
    (∀ (st : ChatState) (content : String) (atts : List Attachment),
      (st.wsConn && st.wsOpen) = false → sendMessage st content atts = st) ∧
    (∀ (st : ShellState) (s : String),
      (st.wsConn && st.wsOpen) = false → shellStep st (.sendCommand s) = st) ∧
    (∀ (st : ShellState) (s : String),
      (st.wsConn && st.wsOpen) = false → shellStep st (.sendKey s) = st) := by
  refine ⟨fun st c a h => ?_, fun st s h => ?_, fun st s h => ?_⟩ <;>
    simp [sendMessage, shellStep, h]

/-- C5 witness: on the unconnected initial states, sends change nothing. -/
theorem claim_C5_witness :
    ((chatInit true).wsConn && (chatInit true).wsOpen) = false ∧
    sendMessage (chatInit true) "m" [] = chatInit true ∧
    ((shellInit true).wsConn && (shellInit true).wsOpen) = false ∧
    shellStep (shellInit true) (.sendCommand "ls") = shellInit true ∧
    shellStep (shellInit true) (.sendKey "k") = shellInit true :=
  ⟨by decide, claim_C5.1 (chatInit true) "m" [] (by decide), by decide,
   claim_C5.2.1 (shellInit true) "ls" (by decide),
   claim_C5.2.2 (shellInit true) "k" (by decide)⟩

/-- C7: a successful upload in the shell-bridge context sends exactly the
returned path string as one raw frame into the open transport — nothing is
appended to it (in particular no trailing newline) and nothing else changes. -/
theorem claim_C7 (st : ShellState) (path : String)
    (h : (st.wsConn && st.wsOpen) = true) :
    shellStep st (.uploadDone path) =
      { st with sentFrames := st.sentFrames ++ [ShellFrame.raw path] } := by
  simp [shellStep, h]

/-- C7 witness: injecting an uploaded path on a live shell transport. -/
theorem claim_C7_witness :
    (stShellReady.wsConn && stShellReady.wsOpen) = true ∧
    shellStep stShellReady (.uploadDone "/uploads/pic.png") =
      { stShellReady with
        sentFrames := stShellReady.sentFrames ++ [ShellFrame.raw "/uploads/pic.png"] } :=
  ⟨by decide, claim_C7 stShellReady "/uploads/pic.png" (by decide)⟩

/-- Refitting never touches the terminal's existence or the connect count. -/
theorem doFit_quiet (st : ShellState) (c r : Nat) :
    (doFit st c r).termAlive = st.termAlive ∧ (doFit st c r).connectCount = st.connectCount := by
  simp only [doFit]
  split <;> exact ⟨rfl, rfl⟩

/-- `connect` returns without opening anything once the terminal is gone. -/
theorem shellConnect_dead (st : ShellState) (h : st.termAlive = false) :
    shellConnect st = st := by
  simp [shellConnect, h]

/-- With the terminal disposed, every event except a fresh mount keeps the
terminal disposed and opens no channel. -/
theorem shell_dead_step (st : ShellState) (e : ShellEvent)
    (h : st.termAlive = false) (hm : ∀ c r, e ≠ .mount c r) :
    (shellStep st e).termAlive = false ∧ (shellStep st e).connectCount = st.connectCount := by
  cases e with
  | mount c r => exact absurd rfl (hm c r)
  | openEvt =>
      simp only [shellStep, shellOnOpen]
      split
      · split <;> simp [h]
      · simp [h]
  | closeEvt =>
      simp only [shellStep, shellOnClose]
      split
      · split <;> simp [h]
      · simp [h]
  | cleanup =>
      simp only [shellStep, shellCleanup]
      split <;> simp
  | reconnectFire =>
      simp only [shellStep]
      split
      · split
        · rw [shellConnect_dead { st with reconnectTimer := none } h]
          simp [h]
        · simp [h]
      · simp [h]
  | fitFire k c r =>
      simp only [shellStep]
      split
      · split
        · exact ⟨(doFit_quiet _ c r).1.trans h, (doFit_quiet _ c r).2⟩
        · simp [h]
      · simp [h]
  | geomChange c r => exact ⟨(doFit_quiet st c r).1.trans h, (doFit_quiet st c r).2⟩
  | sendCommand s =>
      simp only [shellStep]
      split <;> simp [h]
  | sendKey s =>
      simp only [shellStep]
      split <;> simp [h]
  | uploadDone path =>
      simp only [shellStep]
      split <;> simp [h]
  | uploadFail fname =>
      simp only [shellStep]
      split <;> simp [h]
  | elapse d => exact ⟨h, rfl⟩

/-- Once the terminal is disposed, a whole trace free of mounts never opens a
channel. -/
theorem shell_frozen (evs : List ShellEvent) :
    ∀ st : ShellState, st.termAlive = false →
      (∀ e ∈ evs, ∀ c r, e ≠ ShellEvent.mount c r) →
      (evs.foldl shellStep st).connectCount = st.connectCount := by
  induction evs with
  | nil => intro st _ _; rfl
  | cons e rest ih =>
      intro st h hm
      have hd := shell_dead_step st e h (hm e (List.mem_cons_self e rest))
      rw [List.foldl_cons, ih (shellStep st e) hd.1
        (fun e' he' => hm e' (List.mem_cons_of_mem e he'))]
      exact hd.2

/-- C2 (amended): after a close event both transports schedule their
reconnect at exactly now + 3000 ms (fixed, not exponential).  On the shell
transport, consumer disposal cancels the pending reconnect and fit timers,
closes the channel exactly once, and no later mount-free trace ever opens
another channel.  On the chat transport, disposal closes the channel exactly
once (and not again on repeated disposal), but the hook stores no timer
handle, so disposal cancels no pending reconnect timer. -/
theorem claim_C2_amended :
    (∀ st : ChatState, (st.wsConn || st.closePending) = true →
      (chatStep st .closeEvt).timers = st.timers ++ [st.now + 3000]) ∧
    (∀ st : ShellState, (st.wsConn || st.closePending) = true →
      (shellStep st .closeEvt).reconnectTimer = some (st.now + 3000)) ∧
    (∀ st : ShellState,
      (shellStep st .cleanup).reconnectTimer = none ∧
      (shellStep st .cleanup).fitTimers = [] ∧
      (shellStep st .cleanup).termAlive = false) ∧
    (∀ (st : ShellState) (evs : List ShellEvent),
      (∀ e ∈ evs, ∀ c r, e ≠ ShellEvent.mount c r) →
      (evs.foldl shellStep (shellStep st .cleanup)).connectCount =
        (shellStep st .cleanup).connectCount) ∧
    (∀ st : ShellState, st.wsConn = true →
      (shellStep st .cleanup).closedCount = st.closedCount + 1) ∧
    (∀ st : ChatState, st.wsConn = true →
      (disposeChat st).closedCount = st.closedCount + 1 ∧
      (disposeChat (disposeChat st)).closedCount = st.closedCount + 1) := by
  refine ⟨?_, ?_, ?_, ?_, ?_, ?_⟩
  · intro st h
    simp [chatStep, h, chatOnClose]
  · intro st h
    simp only [shellStep, shellOnClose, h, if_true]
    split <;> simp
  · intro st
    simp only [shellStep, shellCleanup]
    split <;> simp
  · intro st evs hm
    have hdead : (shellStep st .cleanup).termAlive = false := by
      simp only [shellStep, shellCleanup]
    exact shell_frozen evs _ hdead hm
  · intro st h
    simp [shellStep, shellCleanup, h]
  · intro st h
    simp [disposeChat, resetFirstMessage, chatDisconnect, h]

/-- C2 counterexample: on the chat transport, disposal does not prevent
reconnection — the close event the disposal provokes schedules a 3000 ms
timer nothing can cancel, and when it fires a second channel is opened. -/
theorem claim_C2_counterexample :
    (chatRun true c2DisposeTrace).connectCount = 1 ∧
    (chatRun true c2DisposeTrace).wsConn = false ∧
    (chatRun true c2FullTrace).connectCount = 2 ∧
    (chatRun true c2FullTrace).wsConn = true := by
  decide

/-- C2 witness: concrete live transports closing, and a disposed shell
transport staying closed over a mount-free trace. -/
theorem claim_C2_witness :
    (stChatOpen.wsConn || stChatOpen.closePending) = true ∧
    (chatStep stChatOpen .closeEvt).timers = stChatOpen.timers ++ [stChatOpen.now + 3000] ∧
    (stShellReady.wsConn || stShellReady.closePending) = true ∧
    (shellStep stShellReady .closeEvt).reconnectTimer = some (stShellReady.now + 3000) ∧
    (shellStep stShellReady .cleanup).reconnectTimer = none ∧
    ([ShellEvent.closeEvt, .elapse 3000, .reconnectFire].foldl shellStep
        (shellStep stShellReady .cleanup)).connectCount =
      (shellStep stShellReady .cleanup).connectCount ∧
    stShellReady.wsConn = true ∧
    (shellStep stShellReady .cleanup).closedCount = stShellReady.closedCount + 1 ∧
    stChatOpen.wsConn = true ∧
    (disposeChat stChatOpen).closedCount = stChatOpen.closedCount + 1 :=
  ⟨by decide, claim_C2_amended.1 stChatOpen (by decide), by decide,
   claim_C2_amended.2.1 stShellReady (by decide),
   (claim_C2_amended.2.2.1 stShellReady).1,
   claim_C2_amended.2.2.2.1 stShellReady [ShellEvent.closeEvt, .elapse 3000, .reconnectFire]
     (by intro e he c r; fin_cases he <;> simp),
   by decide,
   claim_C2_amended.2.2.2.2.1 stShellReady (by decide),
   by decide,
   (claim_C2_amended.2.2.2.2.2 stChatOpen (by decide)).1⟩

/-- C3: the outbound payload's is_first_message equals the disjunction "no
session id is bound (in the code's own truthiness sense) or no session_id
event has been received"; the disposer resets the flag so the next payload
would again be first; and the only event that ever satisfies the flag is a
`session_id`-typed event. -/
theorem claim_C3 (st : ChatState) (content : String) (atts : List Attachment)
    (h : st.wsConn = true) (h2 : st.wsOpen = true) :
    ((sendMessage st content atts).sentPayloads =
      st.sentPayloads ++ [{ content := content, attachments := atts,
                            sessionId := st.currentSessionId,
                            isFirstMessage := isFirstMessageOf st }]) ∧
    (isFirstMessageOf st = true ↔
      (jsStrTruthy st.currentSessionId = false ∨ st.sentFirst = false)) ∧
    ((disposeChat st).sentFirst = false ∧ isFirstMessageOf (disposeChat st) = true) ∧
    (∀ e : ChatEvent, (chatStep st e).sentFirst = true →
      st.sentFirst = true ∨ ∃ sid, e = .recv (.sessionEvt sid)) := by
  refine ⟨?_, ?_, ?_, ?_⟩
  · simp [sendMessage, h, h2, addMessage]
  · cases hA : jsStrTruthy st.currentSessionId <;> cases hB : st.sentFirst <;>
      simp [isFirstMessageOf, hA, hB]
  · simp [disposeChat, resetFirstMessage, chatDisconnect, isFirstMessageOf, h]
  · intro e he
    by_cases hval : ∃ sid, e = ChatEvent.recv (.sessionEvt sid)
    · exact Or.inr hval
    · left
      have hpres : (chatStep st e).sentFirst = st.sentFirst ∨
          (chatStep st e).sentFirst = false := by
        cases e with
        | connectCall =>
            left
            simp only [chatStep, chatConnect]
            split <;> rfl
        | openEvt =>
            left
            simp only [chatStep]
            split <;> rfl
        | recv m =>
            cases m with
            | chunk c t => exact Or.inl rfl
            | done sid =>
                left
                rw [done_step]
            | sessionEvt sid => exact absurd ⟨sid, rfl⟩ hval
            | errorEvt msg =>
                left
                rw [error_step]
        | submit input atts2 =>
            left
            simp only [chatStep, handleSend, sendMessage]
            split
            · rfl
            · split
              · rfl
              · split <;> rfl
        | disconnectCall =>
            left
            simp only [chatStep, chatDisconnect]
            split <;> rfl
        | resetFirstCall => exact Or.inr rfl
        | closeEvt =>
            left
            simp only [chatStep]
            split <;> rfl
        | timerFire k =>
            left
            simp only [chatStep]
            split
            · split
              · simp only [chatConnect]
                split <;> rfl
              · rfl
            · rfl
        | elapse d => exact Or.inl rfl
      rcases hpres with hp | hp
      · rw [← hp]
        exact he
      · rw [hp] at he
        exact absurd he (by simp)

/-- C3 witness: on a freshly opened transport the first payload is marked
first, and disposal resets the flag. -/
theorem claim_C3_witness :
    (sendMessage stChatOpen "m" []).sentPayloads =
      stChatOpen.sentPayloads ++ [{ content := "m", attachments := [],
                                    sessionId := stChatOpen.currentSessionId,
                                    isFirstMessage := isFirstMessageOf stChatOpen }] ∧
    (isFirstMessageOf stChatOpen = true ↔
      (jsStrTruthy stChatOpen.currentSessionId = false ∨ stChatOpen.sentFirst = false)) ∧
    (disposeChat stChatOpen).sentFirst = false ∧
    isFirstMessageOf (disposeChat stChatOpen) = true :=
  ⟨(claim_C3 stChatOpen "m" [] (by decide) (by decide)).1,
   (claim_C3 stChatOpen "m" [] (by decide) (by decide)).2.1,
   (claim_C3 stChatOpen "m" [] (by decide) (by decide)).2.2.1⟩

/-- C6: mount schedules the fit retries at exactly 100 ms, 500 ms and 1500 ms
after mount; the open handler sends the initial resize frame with the current
geometry; a geometry change while disconnected only refits (nothing is sent or
queued); and a geometry change or a due fit retry while connected with
nonzero geometry resends the resize frame. -/
theorem claim_C6 :
    (∀ (st : ShellState) (c r : Nat),
      (shellStep st (.mount c r)).fitTimers = [st.now + 100, st.now + 500, st.now + 1500]) ∧
    (∀ st : ShellState, st.wsConn = true → st.termAlive = true →
      (shellStep st .openEvt).sentFrames =
        st.sentFrames ++ [ShellFrame.resize st.cols st.rows]) ∧
    (∀ (st : ShellState) (c r : Nat), (st.wsConn && st.wsOpen) = false →
      shellStep st (.geomChange c r) = { st with cols := c, rows := r }) ∧
    (∀ (st : ShellState) (c r : Nat), (st.wsConn && st.wsOpen) = true →
      c ≠ 0 → r ≠ 0 →
      (shellStep st (.geomChange c r)).sentFrames =
        st.sentFrames ++ [ShellFrame.resize c r]) ∧
    (∀ (st : ShellState) (k c r : Nat), st.fitTimers[k]? = some st.now →
      (st.wsConn && st.wsOpen) = true → c ≠ 0 → r ≠ 0 →
      (shellStep st (.fitFire k c r)).sentFrames =
        st.sentFrames ++ [ShellFrame.resize c r]) := by
  refine ⟨?_, ?_, ?_, ?_, ?_⟩
  · intro st c r
    simp only [shellStep, shellMount, shellConnect, doFit]
    split <;> split <;> rfl
  · intro st h1 h2
    simp [shellStep, h1, shellOnOpen, h2]
  · intro st c r h
    simp [shellStep, doFit, h]
  · intro st c r h hc hr
    simp [shellStep, doFit, h, hc, hr]
  · intro st k c r ht h hc hr
    simp [shellStep, ht, doFit, h, hc, hr]

/-- C6 witness: a freshly mounted terminal schedules the retry ladder; live
and dead geometry changes behave as stated. -/
theorem claim_C6_witness :
    (shellStep (shellInit true) (.mount 80 24)).fitTimers = [100, 500, 1500] ∧
    (shellStep stShellReady .openEvt).sentFrames =
      stShellReady.sentFrames ++ [ShellFrame.resize 80 24] ∧
    shellStep (shellRun true [.mount 80 24]) (.geomChange 100 40) =
      { shellRun true [.mount 80 24] with cols := 100, rows := 40 } ∧
    (shellStep stShellReady (.geomChange 100 40)).sentFrames =
      stShellReady.sentFrames ++ [ShellFrame.resize 100 40] ∧
    (shellStep (shellStep stShellReady (.elapse 100)) (.fitFire 0 80 24)).sentFrames =
      (shellStep stShellReady (.elapse 100)).sentFrames ++ [ShellFrame.resize 80 24] :=
  ⟨claim_C6.1 (shellInit true) 80 24,
   claim_C6.2.1 stShellReady (by decide) (by decide),
   claim_C6.2.2.1 (shellRun true [.mount 80 24]) 100 40 (by decide),
   claim_C6.2.2.2.1 stShellReady 100 40 (by decide) (by decide) (by decide),
   claim_C6.2.2.2.2 (shellStep stShellReady (.elapse 100)) 0 80 24 (by decide) (by decide)
     (by decide) (by decide)⟩

/-- Each file triggers exactly one upload request, successful or not. -/
theorem uploadOne_calls (st : ComposerState) (fname : String) (res : Option UploadResult) :
    (uploadOne st fname res).uploadCalls = st.uploadCalls + 1 := by
  cases res <;> rfl

/-- The upload loop issues exactly one request per file. -/
theorem upload_foldl_calls (files : List (String × Option UploadResult)) :
    ∀ st : ComposerState,
      (files.foldl (fun s f => uploadOne s f.1 f.2) st).uploadCalls =
        st.uploadCalls + files.length := by
  induction files with
  | nil =>
      intro st
      simp
  | cons f rest ih =>
      intro st
      rw [List.foldl_cons, ih, uploadOne_calls]
      simp only [List.length_cons]
      omega

/-- C8: a failed upload is never retried (exactly one request per file); in
the chat composer it sets the transient notice and schedules its dismissal
3000 ms later, touching nothing else; in the shell context it writes the red
marker line into the terminal buffer and leaves the transport untouched. -/
theorem claim_C8 :
    (∀ (st : ComposerState) (files : List (String × Option UploadResult)),
      (handleFileUpload st files).uploadCalls = st.uploadCalls + files.length) ∧
    (∀ (st : ComposerState) (fname : String),
      uploadOne st fname none =
        { st with uploadCalls := st.uploadCalls + 1,
                  uploadError := some ("上传失败: " ++ fname),
                  errorClearAt := some (st.now + 3000) }) ∧
    (∀ (st : ShellState) (fname : String), st.termAlive = true →
      shellStep st (.uploadFail fname) =
        { st with termBuffer := st.termBuffer ++ uploadFailMarker fname }) := by
  refine ⟨?_, fun st fname => rfl, fun st fname h => by simp [shellStep, h]⟩
  intro st files
  unfold handleFileUpload
  rw [upload_foldl_calls]

/-- C8 witness: one failing and one succeeding upload issue one request each;
a concrete failure writes the banner and the marker line. -/
theorem claim_C8_witness :
    (handleFileUpload composer0
      [("a.png", none), ("b.txt", some { filename := "b.txt", path := "/up/b.txt" })]).uploadCalls =
      composer0.uploadCalls + 2 ∧
    uploadOne composer0 "a.png" none =
      { composer0 with uploadCalls := composer0.uploadCalls + 1,
                       uploadError := some ("上传失败: " ++ "a.png"),
                       errorClearAt := some (composer0.now + 3000) } ∧
    stShellReady.termAlive = true ∧
    shellStep stShellReady (.uploadFail "a.png") =
      { stShellReady with termBuffer := stShellReady.termBuffer ++ uploadFailMarker "a.png" } :=
  ⟨claim_C8.1 composer0 [("a.png", none), ("b.txt", some { filename := "b.txt", path := "/up/b.txt" })],
   claim_C8.2.1 composer0 "a.png", by decide,
   claim_C8.2.2 stShellReady "a.png" (by decide)⟩

/-- Events other than chunk delivery, stream termination and submission touch
neither the Aggregation Buffer nor the streaming flag. -/
theorem chat_quiet_step (st : ChatState) (e : ChatEvent)
    (h : match e with
      | .recv (.chunk _ _) => False
      | .recv (.done _) => False
      | .recv (.errorEvt _) => False
      | .submit _ _ => False
      | _ => True) :
    (chatStep st e).streamChunks = st.streamChunks ∧
    (chatStep st e).streaming = st.streaming := by
  cases e with
  | connectCall =>
      simp only [chatStep, chatConnect]
      split <;> exact ⟨rfl, rfl⟩
  | openEvt =>
      simp only [chatStep]
      split <;> exact ⟨rfl, rfl⟩
  | recv m =>
      cases m with
      | chunk c t => exact h.elim
      | done sid => exact h.elim
      | sessionEvt sid => exact ⟨rfl, rfl⟩
      | errorEvt msg => exact h.elim
  | submit input atts => exact h.elim
  | disconnectCall =>
      simp only [chatStep, chatDisconnect]
      split <;> exact ⟨rfl, rfl⟩
  | resetFirstCall => exact ⟨rfl, rfl⟩
  | closeEvt =>
      simp only [chatStep]
      split <;> exact ⟨rfl, rfl⟩
  | timerFire k =>
      simp only [chatStep]
      split
      · split
        · simp only [chatConnect]
          split <;> exact ⟨rfl, rfl⟩
        · exact ⟨rfl, rfl⟩
      · exact ⟨rfl, rfl⟩
  | elapse d => exact ⟨rfl, rfl⟩

/-- In every reachable chat state, a non-empty Aggregation Buffer implies the
transport is streaming. -/
theorem chat_buffer_invariant (st : ChatState) (h : ChatReachable st) :
    st.streamChunks ≠ [] → st.streaming = true := by
  induction h with
  | init token =>
      intro hne
      exact absurd rfl hne
  | stepChunk st c t h hs ih =>
      intro _
      exact hs
  | stepNonChunk st e h hc ih =>
      intro hne
      cases e with
      | recv m =>
          cases m with
          | chunk c t => exact absurd rfl (hc c t)
          | done sid =>
              rw [done_step] at hne
              exact absurd rfl hne
          | sessionEvt sid =>
              have hq := chat_quiet_step st (.recv (.sessionEvt sid)) trivial
              rw [hq.2]
              exact ih (by rwa [hq.1] at hne)
          | errorEvt msg =>
              rw [error_step] at hne
              exact absurd rfl hne
      | submit input atts =>
          revert hne
          simp only [chatStep, handleSend]
          split
          · exact ih
          · split
            · intro _
              assumption
            · simp only [sendMessage]
              split
              · intro _
                rfl
              · exact ih
      | connectCall =>
          have hq := chat_quiet_step st .connectCall trivial
          rw [hq.2]
          exact ih (by rwa [hq.1] at hne)
      | openEvt =>
          have hq := chat_quiet_step st .openEvt trivial
          rw [hq.2]
          exact ih (by rwa [hq.1] at hne)
      | disconnectCall =>
          have hq := chat_quiet_step st .disconnectCall trivial
          rw [hq.2]
          exact ih (by rwa [hq.1] at hne)
      | resetFirstCall =>
          have hq := chat_quiet_step st .resetFirstCall trivial
          rw [hq.2]
          exact ih (by rwa [hq.1] at hne)
      | closeEvt =>
          have hq := chat_quiet_step st .closeEvt trivial
          rw [hq.2]
          exact ih (by rwa [hq.1] at hne)
      | timerFire k =>
          have hq := chat_quiet_step st (.timerFire k) trivial
          rw [hq.2]
          exact ih (by rwa [hq.1] at hne)
      | elapse d =>
          have hq := chat_quiet_step st (.elapse d) trivial
          rw [hq.2]
          exact ih (by rwa [hq.1] at hne)

/-- C9: in every state reachable by the event step relation (chunks being
delivered only during an exchange, as the protocol serves one sequence per
submission) a non-empty Aggregation Buffer implies streaming; and processing
`done` or `error` always clears the buffer together with ending streaming. -/
theorem claim_C9 (st : ChatState) (h : ChatReachable st) :
    (st.streamChunks ≠ [] → st.streaming = true) ∧
    (∀ sid : Option String,
      (chatStep st (.recv (.done sid))).streamChunks = [] ∧
      (chatStep st (.recv (.done sid))).streaming = false) ∧
    (∀ msg : String,
      (chatStep st (.recv (.errorEvt msg))).streamChunks = [] ∧
      (chatStep st (.recv (.errorEvt msg))).streaming = false) := by
  refine ⟨chat_buffer_invariant st h, fun sid => ?_, fun msg => ?_⟩
  · rw [done_step]
    exact ⟨rfl, rfl⟩
  · rw [error_step]
    exact ⟨rfl, rfl⟩

/-- C9 witness: a reachable mid-stream state with a buffered chunk satisfies
the invariant, and `done`/`error` clear it while ending streaming. -/
theorem claim_C9_witness :
    stChatWithChunk.streamChunks ≠ [] ∧
    stChatWithChunk.streaming = true ∧
    (chatStep stChatWithChunk (.recv (.done (some "s")))).streamChunks = [] ∧
    (chatStep stChatWithChunk (.recv (.done (some "s")))).streaming = false ∧
    (chatStep stChatWithChunk (.recv (.errorEvt "boom"))).streamChunks = [] ∧
    (chatStep stChatWithChunk (.recv (.errorEvt "boom"))).streaming = false := by
  have h0 : ChatReachable (chatInit true) := ChatReachable.init true
  have h1 : ChatReachable (chatStep (chatInit true) .connectCall) :=
    ChatReachable.stepNonChunk _ _ h0 (by intro c t; simp)
  have h2 : ChatReachable (chatStep (chatStep (chatInit true) .connectCall) .openEvt) :=
    ChatReachable.stepNonChunk _ _ h1 (by intro c t; simp)
  have h3 : ChatReachable (chatStep (chatStep (chatStep (chatInit true) .connectCall) .openEvt)
      (.submit "hi" [])) :=
    ChatReachable.stepNonChunk _ _ h2 (by intro c t; simp)
  have h4 : ChatReachable stChatWithChunk :=
    ChatReachable.stepChunk _ "x" none h3 (by decide)
  have hmain := claim_C9 stChatWithChunk h4
  exact ⟨by decide, hmain.1 (by decide), (hmain.2.1 (some "s")).1, (hmain.2.1 (some "s")).2,
    (hmain.2.2 "boom").1, (hmain.2.2 "boom").2⟩

end Bridge
